import Mathlib

/-!
Verification of the DineQR service worker (the offline asset-caching and
update-lifecycle controller), shallowly embedded from the source file
`public/sw.js` (src/unnamed/part_000).

The embedding models:
  * URLs and requests (the fields the worker inspects: origin, hostname,
    pathname, search, mode, destination, method);
  * responses (status, response type, body);
  * the CacheStorage API as an association list of named namespaces, each an
    association list from request keys to stored responses, with
    cachesMatch / cachePut / cacheDelete mirroring caches.match, cache.put
    and caches.delete;
  * the activate handler, the message handler (CLEAR_CACHE), and the fetch
    interceptor as pure functions, with the network supplied as an oracle
    (none models a rejected fetch) and an explicit putOk flag modelling
    whether an attempted cache.put succeeds (a failed put leaves the store
    unchanged, as a rejected put does).

A FetchResult records, besides the response and the resulting store, the
observable actions: whether respondWith was called, whether a cache read or
cache write was performed, and with which options a network fetch (if any)
was issued.  A response field of none on a handled request models
respondWith receiving a rejected promise or undefined, which surfaces to the
page as a failed fetch.
-/

/-- Whether the first character list starts the second one. -/
def charsLead : List Char → List Char → Bool
  | [], _ => true
  | _ :: _, [] => false
  | a :: as, b :: bs => a == b && charsLead as bs

/-- Whether the first character list occurs somewhere inside the second. -/
def charsInside (pat : List Char) : List Char → Bool
  | [] => charsLead pat []
  | b :: bs => charsLead pat (b :: bs) || charsInside pat bs

/-- JS String.prototype.endsWith, on the character list of the string. -/
def strEndsWith (s suf : String) : Bool :=
  charsLead suf.toList.reverse s.toList.reverse

/-- JS String.prototype.includes, on the character list of the string. -/
def strIncludes (s sub : String) : Bool :=
  charsInside sub.toList s.toList

/-- The type of a fetched Response (Response.type in the Fetch API). -/
inductive RType where
  | basic
  | cors
  | error
  | opaq
  | opaqRedirect
deriving DecidableEq, Repr

/-- A response snapshot: status, response type and body.  cache.put stores
such a snapshot (of a clone); the body field keeps distinct responses
distinguishable. -/
structure Response where
  status : Nat
  rtype : RType
  body : String
deriving DecidableEq, Repr

/-- The URL components the worker reads: url.origin, url.hostname,
url.pathname, url.search (from new URL(request.url)). -/
structure Url where
  origin : String
  hostname : String
  pathname : String
  search : String
deriving DecidableEq, Repr

/-- The request fields the worker inspects. -/
structure Request where
  url : Url
  mode : String
  destination : String
  method : String
deriving DecidableEq, Repr

/-- The full URL string request.url, as the worker sees it in
request.url.includes(...). -/
def href (r : Request) : String :=
  r.url.origin ++ r.url.pathname ++ r.url.search

/-- Cache keys: request identity is method + full URL. -/
abbrev Key := String

/-- The key under which a request's response is stored and looked up. -/
def requestKey (r : Request) : Key :=
  r.method ++ " " ++ href r

/-- The key caches.match('/index.html') resolves to: a GET for /index.html
against the worker's own origin. -/
def rootKey (loc : String) : Key :=
  "GET " ++ loc ++ "/index.html"

/-- One cache namespace: entries from keys to stored responses. -/
abbrev Cache := List (Key × Response)

/-- The whole CacheStorage: named namespaces in enumeration order. -/
abbrev CacheStorage := List (String × Cache)

/-- cache.match within a single namespace: first entry with the exact key. -/
def cacheLookup (c : Cache) (k : Key) : Option Response :=
  match c with
  | [] => none
  | (k0, r0) :: rest => if k0 == k then some r0 else cacheLookup rest k

/-- caches.match: search every namespace in order, exact-key match only. -/
def cachesMatch (s : CacheStorage) (k : Key) : Option Response :=
  match s with
  | [] => none
  | (_, c) :: rest =>
    match cacheLookup c k with
    | some r => some r
    | none => cachesMatch rest k

/-- Overwrite-or-append an entry in one namespace (cache.put semantics for
an existing cache). -/
def cacheSet (c : Cache) (k : Key) (resp : Response) : Cache :=
  match c with
  | [] => [(k, resp)]
  | (k0, r0) :: rest =>
    if k0 == k then (k, resp) :: rest else (k0, r0) :: cacheSet rest k resp

/-- caches.open(name) followed by cache.put(k, resp): the namespace is
created if absent, then the entry stored under the exact key. -/
def cachePut (s : CacheStorage) (name : String) (k : Key) (resp : Response) :
    CacheStorage :=
  match s with
  | [] => [(name, [(k, resp)])]
  | (n, c) :: rest =>
    if n == name then (n, cacheSet c k resp) :: rest
    else (n, c) :: cachePut rest name k resp

/-- caches.delete(name): remove the namespace of that name. -/
def cacheDelete (s : CacheStorage) (name : String) : CacheStorage :=
  s.filter (fun p => !(p.1 == name))

/-- const VERSION = '1.0.12'. -/
def VERSION : String := "1.0.12"

/-- The static namespace name for a version: dineqr-v${v}. -/
def cacheNameOf (v : String) : String := "dineqr-v" ++ v

/-- The runtime namespace name for a version: dineqr-runtime-v${v}. -/
def runtimeCacheOf (v : String) : String := "dineqr-runtime-v" ++ v

/-- const CACHE_NAME = dineqr-v${VERSION}. -/
def CACHE_NAME : String := cacheNameOf VERSION

/-- const RUNTIME_CACHE = dineqr-runtime-v${VERSION}. -/
def RUNTIME_CACHE : String := runtimeCacheOf VERSION

/-- The activate listener's cache clean-up: enumerate all namespace names
(caches.keys()) and delete every one that is neither the version's static
nor its runtime namespace. -/
def activate (v : String) (s : CacheStorage) : CacheStorage :=
  (s.map (fun p => p.1)).foldl
    (fun acc n =>
      if !(n == cacheNameOf v) && !(n == runtimeCacheOf v) then
        cacheDelete acc n
      else acc)
    s

/-- The names of the namespaces a version's activate handler would delete:
the enumerated names that are neither current static nor current runtime. -/
def staleNames (v : String) (s : CacheStorage) : List String :=
  (s.map (fun p => p.1)).filter
    (fun n => !(n == cacheNameOf v) && !(n == runtimeCacheOf v))

/-- The CLEAR_CACHE handler's body: enumerate all namespace names and delete
every one of them, unconditionally. -/
def clearAllCaches (s : CacheStorage) : CacheStorage :=
  (s.map (fun p => p.1)).foldl cacheDelete s

/-- The message listener: only a data.type of CLEAR_CACHE touches the cache
storage; SKIP_WAITING (worker promotion) and unrecognized types leave it
unchanged. -/
def handleMessage (s : CacheStorage) (msgType : String) : CacheStorage :=
  if msgType == "CLEAR_CACHE" then clearAllCaches s else s

/-- The sensitive-backend predicate: supabase or api-integrations hostnames,
or a path containing /auth/ or /rest/v1/. -/
def isSensitive (r : Request) : Bool :=
  strIncludes r.url.hostname "supabase" ||
  strIncludes r.url.hostname "api-integrations" ||
  strIncludes r.url.pathname "/auth/" ||
  strIncludes r.url.pathname "/rest/v1/"

/-- The navigation/document guard: navigate mode, document destination,
.html path, or the root path. -/
def isNavigation (r : Request) : Bool :=
  r.mode == "navigate" || r.destination == "document" ||
  strEndsWith r.url.pathname ".html" || r.url.pathname == "/"

/-- The API guard: the full request URL contains /api/. -/
def isApiCall (r : Request) : Bool :=
  strIncludes (href r) "/api/"

/-- The script/stylesheet guard: path ends in .js or .css. -/
def isScriptOrStyle (r : Request) : Bool :=
  strEndsWith r.url.pathname ".js" || strEndsWith r.url.pathname ".css"

/-- The image/font guard, the regex match on the pathname: a literal dot and
one of the listed extensions at the end of the path. -/
def isImageFont (p : String) : Bool :=
  strEndsWith p ".png" || strEndsWith p ".jpg" || strEndsWith p ".jpeg" ||
  strEndsWith p ".gif" || strEndsWith p ".svg" || strEndsWith p ".webp" ||
  strEndsWith p ".woff" || strEndsWith p ".woff2" || strEndsWith p ".ttf" ||
  strEndsWith p ".eot"

/-- How a network fetch was issued: fetch(request) as-is, or with
cache no-store and credentials include (the sensitive branch). -/
inductive FetchSpec where
  | plain
  | noStoreCredentials
deriving DecidableEq, Repr

/-- The observable outcome of the fetch listener on one request.
response = none on a handled request models respondWith seeing a rejected
promise or undefined: the page's fetch fails. -/
structure FetchResult where
  handled : Bool
  response : Option Response
  state : CacheStorage
  didRead : Bool
  didWrite : Bool
  fetchSpec : Option FetchSpec
deriving DecidableEq, Repr

/-- The fetch listener, branch by branch in source order: cross-origin early
return; sensitive no-store branch; navigation network-first without writes;
/api/ network-first with unconditional runtime put; .js/.css identical;
image/font cache-first with the status-200/non-error guard before the put;
default network-first with cache fallback and no writes.  net is the network
oracle (none = the fetch rejects); putOk tells whether an attempted
cache.put succeeds. -/
def handleFetch (loc : String) (state : CacheStorage)
    (net : Request → Option Response) (putOk : Bool) (r : Request) :
    FetchResult :=
  if !(r.url.origin == loc) then
    ⟨false, none, state, false, false, none⟩
  else if isSensitive r then
    ⟨true, net r, state, false, false, some FetchSpec.noStoreCredentials⟩
  else if isNavigation r then
    match net r with
    | some resp => ⟨true, some resp, state, false, false, some FetchSpec.plain⟩
    | none =>
      ⟨true,
       (match cachesMatch state (requestKey r) with
        | some c => some c
        | none => cachesMatch state (rootKey loc)),
       state, true, false, some FetchSpec.plain⟩
  else if isApiCall r then
    match net r with
    | some resp =>
      ⟨true, some resp,
       (if putOk then cachePut state RUNTIME_CACHE (requestKey r) resp
        else state),
       false, true, some FetchSpec.plain⟩
    | none =>
      ⟨true, cachesMatch state (requestKey r), state, true, false,
       some FetchSpec.plain⟩
  else if isScriptOrStyle r then
    match net r with
    | some resp =>
      ⟨true, some resp,
       (if putOk then cachePut state RUNTIME_CACHE (requestKey r) resp
        else state),
       false, true, some FetchSpec.plain⟩
    | none =>
      ⟨true, cachesMatch state (requestKey r), state, true, false,
       some FetchSpec.plain⟩
  else if isImageFont r.url.pathname then
    match cachesMatch state (requestKey r) with
    | some c => ⟨true, some c, state, true, false, none⟩
    | none =>
      match net r with
      | none => ⟨true, none, state, true, false, some FetchSpec.plain⟩
      | some resp =>
        if !(resp.status == 200) || resp.rtype == RType.error then
          ⟨true, some resp, state, true, false, some FetchSpec.plain⟩
        else
          ⟨true, some resp,
           (if putOk then cachePut state RUNTIME_CACHE (requestKey r) resp
            else state),
           true, true, some FetchSpec.plain⟩
  else
    match net r with
    | some resp => ⟨true, some resp, state, false, false, some FetchSpec.plain⟩
    | none =>
      ⟨true, cachesMatch state (requestKey r), state, true, false,
       some FetchSpec.plain⟩

/-! ### Characterizations of the lifecycle handlers -/

/-- Deleting a namespace is filtering it out. -/
theorem cacheDelete_eq_filter (s : CacheStorage) (n : String) :
    cacheDelete s n = s.filter (fun p => !(p.1 == n)) := rfl

/-- The name-keeping predicate of a version: current static or runtime. -/
def isCurrentName (v : String) (n : String) : Bool :=
  n == cacheNameOf v || n == runtimeCacheOf v

/-- One pass of the activate delete loop on a current name is a no-op. -/
theorem activate_step_current (v n : String) (s : CacheStorage)
    (h : isCurrentName v n = true) :
    (if !(n == cacheNameOf v) && !(n == runtimeCacheOf v) then
       cacheDelete s n
     else s) = s := by
  unfold isCurrentName at h
  cases h1 : n == cacheNameOf v <;> cases h2 : n == runtimeCacheOf v <;>
    simp_all

/-- One pass of the activate delete loop on a stale name deletes it. -/
theorem activate_step_stale (v n : String) (s : CacheStorage)
    (h : isCurrentName v n = false) :
    (if !(n == cacheNameOf v) && !(n == runtimeCacheOf v) then
       cacheDelete s n
     else s) = cacheDelete s n := by
  unfold isCurrentName at h
  cases h1 : n == cacheNameOf v <;> cases h2 : n == runtimeCacheOf v <;>
    simp_all

/-- The delete loop of the activate handler, over an arbitrary list of
enumerated names: it keeps exactly the entries whose name is current or was
not enumerated. -/
theorem activate_foldl_eq_filter (v : String) (names : List String) :
    ∀ s : CacheStorage,
      names.foldl
        (fun acc n =>
          if !(n == cacheNameOf v) && !(n == runtimeCacheOf v) then
            cacheDelete acc n
          else acc) s
      = s.filter (fun p => isCurrentName v p.1 || !(decide (p.1 ∈ names))) := by
  induction names with
  | nil =>
    intro s
    simp
  | cons n ns ih =>
    intro s
    rw [List.foldl_cons]
    by_cases hcur : isCurrentName v n = true
    · rw [activate_step_current v n s hcur, ih]
      refine List.filter_congr ?_
      intro p _
      cases hx : p.1 == n
      · have hne : p.1 ≠ n := ne_of_beq_false hx
        simp [hne]
      · have hp1 : p.1 = n := eq_of_beq hx
        have hc : isCurrentName v p.1 = true := by rw [hp1]; exact hcur
        simp [hc]
    · have hcur0 : isCurrentName v n = false := by
        cases hb : isCurrentName v n
        · rfl
        · exact absurd hb hcur
      rw [activate_step_stale v n s hcur0, ih, cacheDelete_eq_filter,
        List.filter_filter]
      refine List.filter_congr ?_
      intro p _
      cases hx : p.1 == n
      · have hne : p.1 ≠ n := ne_of_beq_false hx
        simp [hx, hne]
      · have hp1 : p.1 = n := eq_of_beq hx
        have hc : isCurrentName v p.1 = false := by rw [hp1]; exact hcur0
        simp [hx, hp1, hc, hcur0]

/-- The activate handler keeps exactly the entries with a current name. -/
theorem activate_eq_filter (v : String) (s : CacheStorage) :
    activate v s = s.filter (fun p => isCurrentName v p.1) := by
  unfold activate
  rw [activate_foldl_eq_filter]
  refine List.filter_congr ?_
  intro p hp
  have hm : p.1 ∈ s.map (fun p => p.1) := List.mem_map_of_mem _ hp
  simp [hm]

/-- Enumerated names of a filtered store are the filtered names. -/
theorem map_fst_filter (P : String → Bool) (s : CacheStorage) :
    (s.filter (fun p => P p.1)).map (fun p => p.1)
      = (s.map (fun p => p.1)).filter P := by
  induction s with
  | nil => rfl
  | cons p t ih => cases hp : P p.1 <;> simp [List.filter_cons, hp, ih]

/-- Deleting every name that occurs in the store empties the store. -/
theorem cacheDelete_foldl_nil (names : List String) :
    ∀ s : CacheStorage, (∀ p ∈ s, p.1 ∈ names) →
      names.foldl cacheDelete s = [] := by
  induction names with
  | nil =>
    intro s h
    cases s with
    | nil => rfl
    | cons p t => exact absurd (h p (List.mem_cons_self p t)) (List.not_mem_nil p.1)
  | cons n ns ih =>
    intro s h
    rw [List.foldl_cons]
    apply ih
    intro p hp
    rw [cacheDelete_eq_filter, List.mem_filter] at hp
    have hmem := h p hp.1
    rcases List.mem_cons.mp hmem with h1 | h2
    · exact absurd h1 (ne_of_beq_false (by simpa using hp.2))
    · exact h2

/-- The CLEAR_CACHE loop deletes every namespace. -/
theorem clearAllCaches_eq_nil (s : CacheStorage) : clearAllCaches s = [] :=
  cacheDelete_foldl_nil _ s (fun _ hp => List.mem_map_of_mem _ hp)

/-- C3 (amended): after a version's activate handler runs, the enumerated
cache namespaces are exactly the previously existing ones whose name is the
current static or the current runtime namespace; every other namespace, in
particular any older version's static and runtime namespaces, has been
deleted.  (If the new version's runtime namespace did not exist beforehand,
it is not present: activation deletes but never creates.) -/
theorem activate_names_eq_current_filter (v : String) (s : CacheStorage) :
    (activate v s).map (fun p => p.1)
      = (s.map (fun p => p.1)).filter (fun n => isCurrentName v n) := by
  rw [activate_eq_filter, map_fst_filter]

/-- C3 (counterexample): with V1 = 1.0.11 installed first (static-V1 and
runtime-V1 exist) and V2 = 1.0.12 freshly installed (static-V2 exists, its
runtime namespace not yet created), V2's activate handler leaves only
static-V2: enumerating does not yield runtime-V2, contrary to the claim
that enumeration yields exactly static-V2 and runtime-V2. -/
theorem activate_does_not_create_runtime_namespace :
    activate "1.0.12"
        [(cacheNameOf "1.0.11", []), (runtimeCacheOf "1.0.11", []),
         (cacheNameOf "1.0.12", [])]
      = [(cacheNameOf "1.0.12", [])]
    ∧ runtimeCacheOf "1.0.12" ∉
        (activate "1.0.12"
          [(cacheNameOf "1.0.11", []), (runtimeCacheOf "1.0.11", []),
           (cacheNameOf "1.0.12", [])]).map (fun p => p.1) := by
  decide

/-- C9: the activate handler is idempotent: a second run from the state the
first one produced changes nothing, and the second run has no stale
namespace left to delete (no duplicate deletions). -/
theorem activate_idempotent (v : String) (s : CacheStorage) :
    activate v (activate v s) = activate v s
      ∧ staleNames v (activate v s) = [] := by
  have hstale : ∀ n : String,
      ((!(n == cacheNameOf v) && !(n == runtimeCacheOf v))
        && isCurrentName v n) = false := by
    intro n
    unfold isCurrentName
    cases h1 : n == cacheNameOf v <;> cases h2 : n == runtimeCacheOf v <;>
      simp [h1, h2]
  constructor
  · simp only [activate_eq_filter, List.filter_filter, Bool.and_self]
  · simp only [staleNames, activate_eq_filter, map_fst_filter,
      List.filter_filter, hstale]
    exact List.filter_false _

/-- C8: a CLEAR_CACHE message deletes every cache namespace regardless of
version, and afterwards no key has a cached response: a subsequent lookup
for any previously cached entry misses. -/
theorem clear_cache_deletes_all (s : CacheStorage) (k : Key) :
    handleMessage s "CLEAR_CACHE" = []
      ∧ cachesMatch (handleMessage s "CLEAR_CACHE") k = none := by
  have h : handleMessage s "CLEAR_CACHE" = [] := by
    simp [handleMessage, clearAllCaches_eq_nil]
  exact ⟨h, by rw [h]; rfl⟩

/-! ### Concrete fixtures for witnesses and counterexamples -/

/-- The app's own origin in the concrete scenarios. -/
def appOrigin : String := "https://dineqr.app"

/-- A same-origin POST to a REST data endpoint (sensitive path). -/
def restPostReq : Request :=
  ⟨⟨appOrigin, "dineqr.app", "/rest/v1/orders", ""⟩, "cors", "", "POST"⟩

/-- A cross-origin request to a supabase hostname (sensitive predicate). -/
def crossSupabaseReq : Request :=
  ⟨⟨"https://xyz.supabase.co", "xyz.supabase.co", "/rest/v1/orders", ""⟩,
   "cors", "", "GET"⟩

/-- A same-origin navigation request whose path contains /auth/. -/
def navAuthReq : Request :=
  ⟨⟨appOrigin, "dineqr.app", "/auth/callback", ""⟩, "navigate", "document",
   "GET"⟩

/-- A same-origin top-level navigation to the root path. -/
def rootReq : Request :=
  ⟨⟨appOrigin, "dineqr.app", "/", ""⟩, "navigate", "document", "GET"⟩

/-- A same-origin API request. -/
def apiReq : Request :=
  ⟨⟨appOrigin, "dineqr.app", "/api/orders", ""⟩, "cors", "", "GET"⟩

/-- A same-origin image request. -/
def iconReq : Request :=
  ⟨⟨appOrigin, "dineqr.app", "/menu/icon.png", ""⟩, "no-cors", "image", "GET"⟩

/-- A successful basic response. -/
def okResp : Response := ⟨200, RType.basic, "ok"⟩

/-- A successful image response. -/
def pngResp : Response := ⟨200, RType.basic, "png-bytes"⟩

/-- A fulfilled but unsuccessful response (HTTP 404). -/
def notFoundResp : Response := ⟨404, RType.basic, "not-found"⟩

/-- A fulfilled but unsuccessful response (HTTP 500). -/
def errResp : Response := ⟨500, RType.basic, "server-error"⟩

/-- A cached copy of the root document. -/
def indexResp : Response := ⟨200, RType.basic, "index-html"⟩

/-- A network that answers every request with okResp. -/
def netOk : Request → Option Response := fun _ => some okResp

/-- An unreachable network: every fetch rejects. -/
def netDown : Request → Option Response := fun _ => none

/-- A network that answers every request with a 404. -/
def net404 : Request → Option Response := fun _ => some notFoundResp

/-- A network that answers every request with a 500. -/
def netErr : Request → Option Response := fun _ => some errResp

/-- A store holding only a cached root document in the static namespace. -/
def stateWithIndex : CacheStorage :=
  [(CACHE_NAME, [(rootKey appOrigin, indexResp)])]

/-- A store with one runtime entry for the API request. -/
def runtimeSeeded : CacheStorage :=
  [(RUNTIME_CACHE, [(requestKey apiReq, okResp)])]

/-! ### Fetch interceptor claims -/

/-- C1 (counterexample): the /api/ branch writes any fulfilled response to
the runtime namespace without a status check: a 404 response for an API
request is stored, contradicting the claim that an entry is only written
for responses with a successful status in every writing branch. -/
theorem api_branch_caches_error_response :
    notFoundResp.status ≠ 200
    ∧ (handleFetch appOrigin [] net404 true apiReq).state
        = [(RUNTIME_CACHE, [(requestKey apiReq, notFoundResp)])]
    ∧ cachesMatch (handleFetch appOrigin [] net404 true apiReq).state
        (requestKey apiReq) = some notFoundResp := by
  decide

/-- C1 (amended): only the image/font cache-first branch guards its cache
write: when a request with an image/font extension (and no /api/ or
.js/.css match) fetches a response whose status is not 200 or whose type is
error, no entry is written and the store is unchanged.  The /api/ and
.js/.css branches write every fulfilled response unconditionally. -/
theorem image_font_write_guard (loc : String) (state : CacheStorage)
    (net : Request → Option Response) (putOk : Bool) (r : Request)
    (resp : Response)
    (himg : isImageFont r.url.pathname = true)
    (hapi : isApiCall r = false)
    (hjs : isScriptOrStyle r = false)
    (hnet : net r = some resp)
    (hbad : resp.status ≠ 200 ∨ resp.rtype = RType.error) :
    (handleFetch loc state net putOk r).state = state
    ∧ (handleFetch loc state net putOk r).didWrite = false := by
  have hguard : (!(resp.status == 200) || resp.rtype == RType.error) = true := by
    rcases hbad with h | h
    · simp [h]
    · simp [h]
  cases h0 : r.url.origin == loc
  · constructor <;> simp [handleFetch, h0]
  · cases h1 : isSensitive r
    · cases h2 : isNavigation r
      · cases hm : cachesMatch state (requestKey r)
        · constructor <;>
            simp [handleFetch, h0, h1, h2, hapi, hjs, himg, hm, hnet, hguard]
        · constructor <;>
            simp [handleFetch, h0, h1, h2, hapi, hjs, himg, hm]
      · constructor <;> simp [handleFetch, h0, h1, h2, hnet]
    · constructor <;> simp [handleFetch, h0, h1]

/-- C1 (witness): a 500 response for an image request is not cached. -/
theorem image_font_write_guard_witness :
    (handleFetch appOrigin [] netErr true iconReq).state = []
    ∧ (handleFetch appOrigin [] netErr true iconReq).didWrite = false :=
  image_font_write_guard appOrigin [] netErr true iconReq errResp
    (by decide) (by decide) (by decide) rfl (Or.inl (by decide))

/-- C2 (counterexample): a cross-origin request to a supabase hostname
matches the sensitive-backend predicate, yet the interceptor does not
handle it at all (no respondWith): in particular it is not issued with
caching disabled and credentials forwarded, contrary to the claim that this
holds for every request matching the predicate. -/
theorem cross_origin_sensitive_not_intercepted :
    isSensitive crossSupabaseReq = true
    ∧ handleFetch appOrigin runtimeSeeded netOk true crossSupabaseReq
        = ⟨false, none, runtimeSeeded, false, false, none⟩ := by
  decide

/-- C2 (amended): for every same-origin request matching the
sensitive-backend predicate, regardless of HTTP method, the interceptor
performs no cache read and no cache write, leaves the store unchanged, and
issues the request with caching disabled (no-store) and credentials
included; a cross-origin request matching the predicate is instead passed
through untouched, with no cache access either. -/
theorem sensitive_same_origin_network_only (loc : String)
    (state : CacheStorage) (net : Request → Option Response) (putOk : Bool)
    (r : Request)
    (horig : (r.url.origin == loc) = true)
    (hsens : isSensitive r = true) :
    handleFetch loc state net putOk r
      = ⟨true, net r, state, false, false,
         some FetchSpec.noStoreCredentials⟩ := by
  simp [handleFetch, horig, hsens]

/-- C2 (witness): a same-origin POST to /rest/v1/orders is issued no-store
with credentials, reading and writing no cache namespace. -/
theorem sensitive_same_origin_network_only_witness :
    handleFetch appOrigin runtimeSeeded netOk true restPostReq
      = ⟨true, netOk restPostReq, runtimeSeeded, false, false,
         some FetchSpec.noStoreCredentials⟩ :=
  sensitive_same_origin_network_only appOrigin runtimeSeeded netOk true
    restPostReq (by decide) (by decide)

/-- C4 (counterexample): a same-origin navigation request whose path
contains /auth/ is captured by the sensitive branch first: with the network
down and the root document cached, the result is a failure, not the cached
root document, contrary to the claim for every navigation request. -/
theorem auth_navigation_no_cache_fallback :
    isNavigation navAuthReq = true
    ∧ cachesMatch stateWithIndex (rootKey appOrigin) = some indexResp
    ∧ (handleFetch appOrigin stateWithIndex netDown true navAuthReq).response
        = none := by
  decide

/-- C4 (amended): for every same-origin navigation/document request that
does not match the sensitive-backend predicate: on network success the live
response is returned unmodified and no cache namespace is written; on
network failure the response is the cached entry exactly matching the
request or, if none exists, the cached root document. -/
theorem navigation_network_first_no_writes (loc : String)
    (state : CacheStorage) (net : Request → Option Response) (putOk : Bool)
    (r : Request)
    (horig : (r.url.origin == loc) = true)
    (hsens : isSensitive r = false)
    (hnav : isNavigation r = true) :
    (∀ resp, net r = some resp →
      handleFetch loc state net putOk r
        = ⟨true, some resp, state, false, false, some FetchSpec.plain⟩)
    ∧ (net r = none →
        (handleFetch loc state net putOk r).state = state
        ∧ (handleFetch loc state net putOk r).didWrite = false
        ∧ ((∃ c, cachesMatch state (requestKey r) = some c
              ∧ (handleFetch loc state net putOk r).response = some c)
           ∨ (cachesMatch state (requestKey r) = none
              ∧ (handleFetch loc state net putOk r).response
                  = cachesMatch state (rootKey loc)))) := by
  constructor
  · intro resp hresp
    simp [handleFetch, horig, hsens, hnav, hresp]
  · intro hresp
    cases hm : cachesMatch state (requestKey r) with
    | none =>
      refine ⟨?_, ?_, Or.inr ⟨rfl, ?_⟩⟩ <;>
        simp [handleFetch, horig, hsens, hnav, hresp, hm]
    | some c =>
      refine ⟨?_, ?_, Or.inl ⟨c, rfl, ?_⟩⟩ <;>
        simp [handleFetch, horig, hsens, hnav, hresp, hm]

/-- C4 (witness): a root navigation with the network up returns the live
response and leaves the cache unchanged. -/
theorem navigation_network_first_no_writes_witness :
    handleFetch appOrigin stateWithIndex netOk true rootReq
      = ⟨true, some okResp, stateWithIndex, false, false,
         some FetchSpec.plain⟩ :=
  (navigation_network_first_no_writes appOrigin stateWithIndex netOk true
      rootReq (by decide) (by decide) (by decide)).1 okResp rfl

/-- C5: round-trip: seeding the runtime namespace with response R under a
request's key and then intercepting that image/font request returns exactly
R, with no network fetch attempted (fetchSpec = none) and the store
unchanged — for any network, including an unreachable one. -/
theorem cache_first_round_trip (loc : String)
    (net : Request → Option Response) (putOk : Bool) (r : Request)
    (R : Response)
    (horig : (r.url.origin == loc) = true)
    (hsens : isSensitive r = false)
    (hnav : isNavigation r = false)
    (hapi : isApiCall r = false)
    (hjs : isScriptOrStyle r = false)
    (himg : isImageFont r.url.pathname = true) :
    handleFetch loc (cachePut [] RUNTIME_CACHE (requestKey r) R) net putOk r
      = ⟨true, some R, cachePut [] RUNTIME_CACHE (requestKey r) R, true,
         false, none⟩ := by
  have hm : cachesMatch (cachePut [] RUNTIME_CACHE (requestKey r) R)
      (requestKey r) = some R := by
    simp [cachePut, cachesMatch, cacheLookup]
  simp [handleFetch, horig, hsens, hnav, hapi, hjs, himg, hm]

/-- C5 (witness): an icon request served from the seeded runtime namespace
while the network is unreachable. -/
theorem cache_first_round_trip_witness :
    handleFetch appOrigin
        (cachePut [] RUNTIME_CACHE (requestKey iconReq) pngResp) netDown
        true iconReq
      = ⟨true, some pngResp,
         cachePut [] RUNTIME_CACHE (requestKey iconReq) pngResp, true,
         false, none⟩ :=
  cache_first_round_trip appOrigin netDown true iconReq pngResp
    (by decide) (by decide) (by decide) (by decide) (by decide) (by decide)

/-- C6: for every same-origin request outside the sensitive and navigation
branches (API, script/stylesheet, image/font and default branches), a
network failure yields exactly the cached entry for the request key — and
when no cached entry exists the result's response is none, i.e. the failure
propagates to the caller — and the store is unchanged. -/
theorem network_failure_cache_fallback (loc : String) (state : CacheStorage)
    (net : Request → Option Response) (putOk : Bool) (r : Request)
    (horig : (r.url.origin == loc) = true)
    (hsens : isSensitive r = false)
    (hnav : isNavigation r = false)
    (hnet : net r = none) :
    (handleFetch loc state net putOk r).response
        = cachesMatch state (requestKey r)
    ∧ (handleFetch loc state net putOk r).state = state := by
  cases hapi : isApiCall r
  · cases hjs : isScriptOrStyle r
    · cases himg : isImageFont r.url.pathname
      · constructor <;>
          simp [handleFetch, horig, hsens, hnav, hapi, hjs, himg, hnet]
      · cases hm : cachesMatch state (requestKey r) <;>
          constructor <;>
          simp [handleFetch, horig, hsens, hnav, hapi, hjs, himg, hnet, hm]
    · constructor <;> simp [handleFetch, horig, hsens, hnav, hapi, hjs, hnet]
  · constructor <;> simp [handleFetch, horig, hsens, hnav, hapi, hnet]

/-- C6 (witness): an API request with the network down is served from the
runtime namespace entry for its exact key. -/
theorem network_failure_cache_fallback_witness :
    (handleFetch appOrigin runtimeSeeded netDown true apiReq).response
        = cachesMatch runtimeSeeded (requestKey apiReq)
    ∧ (handleFetch appOrigin runtimeSeeded netDown true apiReq).state
        = runtimeSeeded :=
  network_failure_cache_fallback appOrigin runtimeSeeded netDown true apiReq
    (by decide) (by decide) (by decide) rfl

/-- C7: a failed cache.put never fails the overall response: on every
request, the interceptor run with failing puts hands the caller the same
response (and the same handled flag) as the run with succeeding puts. -/
theorem put_failure_preserves_response (loc : String) (state : CacheStorage)
    (net : Request → Option Response) (r : Request) :
    (handleFetch loc state net false r).response
        = (handleFetch loc state net true r).response
    ∧ (handleFetch loc state net false r).handled
        = (handleFetch loc state net true r).handled := by
  unfold handleFetch
  constructor <;> (repeat' split) <;> rfl

/-- C10: every cache read of the interceptor searches all existing
namespaces: with the only entry for a request's key stored under an
arbitrary namespace name n — in particular a stale, not yet
garbage-collected one — every non-sensitive same-origin branch serves that
entry when the network is unreachable. -/
theorem cache_reads_search_all_namespaces (loc n : String)
    (net : Request → Option Response) (putOk : Bool) (r : Request)
    (R : Response)
    (horig : (r.url.origin == loc) = true)
    (hsens : isSensitive r = false)
    (hnet : net r = none) :
    (handleFetch loc [(n, [(requestKey r, R)])] net putOk r).response
      = some R := by
  have hm : cachesMatch [(n, [(requestKey r, R)])] (requestKey r)
      = some R := by
    simp [cachesMatch, cacheLookup]
  cases h2 : isNavigation r
  · cases h3 : isApiCall r
    · cases h4 : isScriptOrStyle r
      · cases h5 : isImageFont r.url.pathname
        · simp [handleFetch, horig, hsens, h2, h3, h4, h5, hnet, hm]
        · simp [handleFetch, horig, hsens, h2, h3, h4, h5, hm]
      · simp [handleFetch, horig, hsens, h2, h3, h4, hnet, hm]
    · simp [handleFetch, horig, hsens, h2, h3, hnet, hm]
  · simp [handleFetch, horig, hsens, h2, hnet, hm]

/-- C10 (witness): an entry stored under the stale namespace dineqr-v1.0.0
(neither the current static nor the current runtime namespace) is served to
an API request when the network is down. -/
theorem cache_reads_search_all_namespaces_witness :
    (handleFetch appOrigin [(cacheNameOf "1.0.0", [(requestKey apiReq, okResp)])]
        netDown true apiReq).response = some okResp :=
  cache_reads_search_all_namespaces appOrigin (cacheNameOf "1.0.0") netDown
    true apiReq okResp (by decide) (by decide) rfl
